import Mathlib

/-!
# terraform-provider-extras: identifier codec, session cache and dispatch shim

A shallow embedding of the Go package `tfextras`.

* Go strings are modelled by `String`; every operation used by the package
  (`strings.HasPrefix`, `strings.TrimPrefix`, `strings.SplitN`, `fmt.Sprintf`)
  only compares and copies code units, so the functions below work on the
  unit list `String.data`.
* A Go run-time panic (failed index, failed type assertion, nil dereference) is
  an explicit outcome, `Run.panic`.
-/

namespace TfExtras

/-! ## Outcomes of Go code -/

/-- Outcome of running a piece of Go code: it returns a value, or it panics. -/
inductive Run (α : Type) where
  | done (a : α)
  | panic (why : String)
  deriving DecidableEq, Repr

/-! ## The parts of package `strings` and `fmt` that are used -/

/-- Go `strings.HasPrefix(s, p)`: `len(s) >= len(p) && s[:len(p)] == p`. -/
def HasPrefix (s p : String) : Bool :=
  decide (p.length ≤ s.length) && decide (s.data.take p.length = p.data)

/-- Go `strings.TrimPrefix(s, p)`: `s[len(p):]` when `s` has the prefix `p`, else `s`. -/
def TrimPrefix (s p : String) : String :=
  if HasPrefix s p then ⟨s.data.drop p.length⟩ else s

/-- Cut a unit list at the first occurrence of `sep`: the text before it and the
text after it, or `none` when `sep` does not occur (Go `strings.Index` gives -1). -/
def cutFirst (sep : Char) : List Char → Option (List Char × List Char)
  | [] => none
  | c :: cs =>
    if c = sep then some ([], cs)
    else match cutFirst sep cs with
      | none => none
      | some (a, b) => some (c :: a, b)

/-- Go `strings.SplitN(s, sep, n)` for a one-unit separator and `n ≥ 0`: nothing for
`n = 0`; otherwise at most `n` pieces, the last one being the unsplit rest. -/
def SplitN (s : List Char) (sep : Char) : Nat → List (List Char)
  | 0 => []
  | 1 => [s]
  | n + 2 =>
    match cutFirst sep s with
    | none => [s]
    | some (a, rest) => a :: SplitN rest sep (n + 1)

/-- Go `fmt.Sprintf("%s:%s", a, b)`. -/
def sprintfColon (a b : String) : String := a ++ ":" ++ b

/-! ## provider.go: change ID normalisation -/

/-- Source `cleanPrefix`. -/
def cleanPrefix (ID pfx : String) : String :=
  if HasPrefix ID pfx then TrimPrefix ID pfx else ID

/-- Source `cleanChangeID`. -/
def cleanChangeID (ID : String) : String := cleanPrefix ID "/change/"

/-! ## resource_aws_route53_zone_association_authorization.go: the ID codec -/

/-- Source `resourceAwsRoute53ZoneAssociationAuthorizationParseId`:
`parts := strings.SplitN(id, ":", 2)`, then `parts[0]` and `parts[1]`; an index
outside the slice is a run-time panic. -/
def resourceAwsRoute53ZoneAssociationAuthorizationParseId (id : String) :
    Run (String × String) :=
  let parts := SplitN id.data ':' 2
  match parts.get? 0 with
  | none => .panic "index out of range [0]"
  | some zone_id =>
    match parts.get? 1 with
    | none => .panic "index out of range [1] with length 1"
    | some vpc_id => .done (⟨zone_id⟩, ⟨vpc_id⟩)

/-! ## Errors and external SDK values -/

/-- A Go `error` value: an `awserr.Error` (it has a `Code()`), or any other error.
`text` is what `Error()` prints. -/
inductive GoError where
  | aws (code : String) (text : String)
  | plain (text : String)
  deriving DecidableEq, Repr

/-- Go `err.Error()`. -/
def GoError.Error : GoError → String
  | .aws _ text => text
  | .plain text => text

/-- Go `if e, ok := err.(awserr.Error); ok && e.Code() == code`. -/
def isAwsErrWithCode (err : GoError) (code : String) : Bool :=
  match err with
  | .aws c _ => decide (c = code)
  | .plain _ => false

/-- The fields of upstream `tfaws.Config` that `providerConfigure` fills in and
`getClient` reads. -/
structure Config where
  AccessKey : String
  SecretKey : String
  Profile : String
  CredsFilename : String
  Token : String
  Region : String
  MaxRetries : Int
  Insecure : Bool
  SkipCredsValidation : Bool
  SkipRegionValidation : Bool
  SkipRequestingAccountId : Bool
  SkipMetadataApiCheck : Bool
  S3ForcePathStyle : Bool
  IamEndpoint : String
  AllowedAccountIds : List String
  ForbiddenAccountIds : List String
  deriving DecidableEq, Repr

/-- A resolved credential chain (`*credentials.Credentials`), as a handle. -/
structure Creds where
  handle : Nat
  deriving DecidableEq, Repr

/-- SDK `credentials.Value`; only `ProviderName` is read. -/
structure CredValue where
  ProviderName : String
  deriving DecidableEq, Repr

/-- SDK `aws.Config` as `getClient` builds it. `Insecure` stands for the
`InsecureSkipVerify` flag written onto the transport of the fresh HTTP client;
`Endpoint` is `none` while the pointer is nil. -/
structure AwsConfig where
  Credentials : Creds
  Region : String
  MaxRetries : Int
  Insecure : Bool
  S3ForcePathStyle : Bool
  Endpoint : Option String
  deriving DecidableEq, Repr

/-- SDK `session.Session`, identified by its configuration. -/
structure Session where
  Config : AwsConfig
  deriving DecidableEq, Repr

/-- SDK `sess.Copy(&aws.Config{Region: aws.String(r)})`. -/
def Session.CopyRegion (sess : Session) (r : String) : Session :=
  { Config := { sess.Config with Region := r } }

/-- SDK `sess.Copy(&aws.Config{Endpoint: aws.String(e)})`. -/
def Session.CopyEndpoint (sess : Session) (e : String) : Session :=
  { Config := { sess.Config with Endpoint := some e } }

/-- Typed service clients, each bound to the session it was made from
(`route53.New`, `iam.New`, `sts.New`, `directconnect.New`). -/
structure Route53 where
  sess : Session
  deriving DecidableEq, Repr

structure IAM where
  sess : Session
  deriving DecidableEq, Repr

structure STS where
  sess : Session
  deriving DecidableEq, Repr

structure DirectConnect where
  sess : Session
  deriving DecidableEq, Repr

/-- Upstream `tfaws.AWSClient`, the base-provider context; never inspected here. -/
structure TfAWSClient where
  handle : Nat
  deriving DecidableEq, Repr

/-! ## provider.go: contexts and the session cache -/

set_option linter.dupNamespace false in
/-- Source `AWSClient`: the upstream context, embedded, plus the extension fields.
Pointer fields are `none` while nil. -/
structure AWSClient where
  AWSClient : TfAWSClient
  region : String
  partition : String
  accountid : String
  subProvider : String
  r53conn : Option Route53
  iamconn : Option IAM
  stsconn : Option STS
  dxconn : Option DirectConnect
  deriving DecidableEq, Repr

/-- Address of an `AWSClient` object; a `*AWSClient` is an `Option Addr`, `none` being nil. -/
abbrev Addr := Nat

/-- Process state: the package variable `providers` (a Go map read only through
`providers[k]`, which gives nil for a missing key) and the `AWSClient` objects. -/
structure World where
  providers : String → Option Addr
  heap : Addr → AWSClient

/-- Assignment through a pointer: `p.f = v` for the object at `a`. -/
def World.modify (w : World) (a : Addr) (f : AWSClient → AWSClient) : World :=
  { w with heap := fun b => if b = a then f (w.heap a) else w.heap b }

/-- Go `providers[k] = p`. -/
def World.register (w : World) (k : String) (p : Option Addr) : World :=
  { w with providers := fun l => if l = k then p else w.providers l }

/-- Source `getClientByName`. -/
def getClientByName (w : World) (subProvider : String) : Option Addr :=
  w.providers subProvider

/-- Go `interface{}` values that occur as `meta`: the nil interface, a
`*AWSClient` (possibly a nil pointer: then the interface itself is not nil), a
`*tfaws.AWSClient` pointing at the embedded base of the object at an address, or a
value of some other dynamic type. -/
inductive Iface where
  | nil
  | awsClient (p : Option Addr)
  | tfAwsClient (p : Option Addr)
  | other (tag : String)
  deriving DecidableEq, Repr

/-- Go type assertion `meta.(*AWSClient)`. -/
def Iface.assertAWSClient : Iface → Run (Option Addr)
  | .awsClient p => .done p
  | .nil => .panic "interface conversion: interface is nil, not *tfextras.AWSClient"
  | .tfAwsClient _ => .panic "interface conversion: interface is *aws.AWSClient, not *tfextras.AWSClient"
  | .other _ => .panic "interface conversion: interface is not *tfextras.AWSClient"

/-- Go `meta.(*AWSClient)` followed by a field selection: the pointer must not be nil. -/
def Iface.derefAWSClient (meta : Iface) : Run Addr :=
  match meta.assertAWSClient with
  | .panic why => .panic why
  | .done none => .panic "invalid memory address or nil pointer dereference"
  | .done (some a) => .done a

/-! ## Route 53 requests and responses, the change waiter -/

/-- SDK `route53.VPC`; a field is `none` while its pointer is nil. -/
structure VPC where
  VPCId : Option String
  VPCRegion : Option String
  deriving DecidableEq, Repr

/-- SDK `route53.AssociateVPCWithHostedZoneInput` as `Create` fills it. -/
structure AssociateVPCWithHostedZoneInput where
  HostedZoneId : String
  VPCId : String
  VPCRegion : String
  Comment : String
  deriving DecidableEq, Repr

/-- SDK `route53.AssociateVPCWithHostedZoneOutput`: `ChangeInfoId` is
`*resp.ChangeInfo.Id`, `none` when a pointer on that path is nil. -/
structure AssociateVPCWithHostedZoneOutput where
  ChangeInfoId : Option String
  deriving DecidableEq, Repr

/-- SDK `route53.CreateVPCAssociationAuthorizationInput` and
`route53.DeleteVPCAssociationAuthorizationInput` (same three fields). -/
structure VPCAssociationAuthorizationInput where
  HostedZoneId : String
  VPCId : String
  VPCRegion : String
  deriving DecidableEq, Repr

/-- SDK `route53.ListVPCAssociationAuthorizationsInput`. -/
structure ListVPCAssociationAuthorizationsInput where
  HostedZoneId : String
  deriving DecidableEq, Repr

/-- SDK `route53.ListVPCAssociationAuthorizationsOutput`: the slice `VPCs` of
`*route53.VPC`, an entry being `none` while nil. -/
structure ListVPCAssociationAuthorizationsOutput where
  VPCs : List (Option VPC)
  deriving DecidableEq, Repr

/-- SDK `route53.GetChangeInput`. -/
structure GetChangeInput where
  Id : String
  deriving DecidableEq, Repr

/-- SDK `route53.GetChangeOutput`: `ChangeInfoStatus` is `*status.ChangeInfo.Status`. -/
structure GetChangeOutput where
  ChangeInfoStatus : Option String
  deriving DecidableEq, Repr

/-- What a waiter `Refresh` function returns: `(result, state, err)`. -/
structure RefreshResult where
  result : Option Bool
  state : String
  err : Option GoError
  deriving DecidableEq, Repr

/-- Upstream `resource.StateChangeConf`, durations in seconds. `Refresh` is given
the number of the poll, since the service may answer differently each time. -/
structure StateChangeConf where
  Delay : Nat
  Pending : List String
  Target : List String
  Timeout : Nat
  MinTimeout : Nat
  Refresh : Nat → Run RefreshResult

/-! ## External collaborators -/

/-- Everything the package calls but does not define: upstream configuration
checks, credential resolution, session construction, the Route 53 API and the
state-change waiter. Each is an arbitrary function of what the call is given. -/
structure Env where
  ValidateRegion : Config → Option GoError
  GetCredentials : Config → Except GoError Creds
  CredsGet : Creds → Except GoError CredValue
  NewSession : AwsConfig → Except GoError Session
  ValidateCredentials : Config → Option STS → Option GoError
  GetAccountInfo : Option IAM → Option STS → String → Except GoError (String × String)
  ValidateAccountId : Config → String → Option GoError
  AssociateVPCWithHostedZone :
    Route53 → AssociateVPCWithHostedZoneInput → Except GoError AssociateVPCWithHostedZoneOutput
  CreateVPCAssociationAuthorization :
    Route53 → VPCAssociationAuthorizationInput → Option GoError
  DeleteVPCAssociationAuthorization :
    Route53 → VPCAssociationAuthorizationInput → Option GoError
  ListVPCAssociationAuthorizations :
    Route53 → ListVPCAssociationAuthorizationsInput →
      Except GoError ListVPCAssociationAuthorizationsOutput
  GetChange : Route53 → GetChangeInput → Nat → Except GoError GetChangeOutput
  WaitForState : StateChangeConf → Run (Option GoError)

/-! ## provider.go: the provider factory -/

/-- The fixed message of `getClient` for the `NoCredentialProviders` code. -/
def noCredentialSourcesMessage : String :=
  "No valid credential sources found for AWS Provider.\n  Please see https://terraform.io/docs/providers/aws/index.html for more information on\n  providing credentials for the AWS Provider"

/-- The `&aws.Config` literal of `getClient` (lines 190-203): credentials, region,
retries, a fresh HTTP client whose transport skips certificate verification when
`c.Insecure` is set, and the S3 path-style flag. -/
def sessionConfig (c : Config) (creds : Creds) : AwsConfig :=
  { Credentials := creds, Region := c.Region, MaxRetries := c.MaxRetries,
    Insecure := c.Insecure, S3ForcePathStyle := c.S3ForcePathStyle, Endpoint := none }

/-- Source `getClient`, lines 245-253: the DNS client on the `us-east-1`
session, the registration under a non-empty label, the dedicated-connect client,
and the return of `client`. -/
def getClientPublish (subProvider : String) (a : Addr) (sess usEast1Sess : Session)
    (w3 : World) : Run (Iface × Option GoError) × World :=
  let w4 := w3.modify a fun cl => { cl with r53conn := some ⟨usEast1Sess⟩ }
  let w5 := if subProvider ≠ "" then w4.register subProvider (some a) else w4
  let w6 := w5.modify a fun cl => { cl with dxconn := some ⟨sess⟩ }
  (.done (.awsClient (some a), none), w6)

/-- Source `getClient`, lines 211-253: everything after the base session exists. -/
def getClientWithSession (env : Env) (c : Config) (subProvider : String) (a : Addr)
    (cp : CredValue) (sess : Session) (w1 : World) : Run (Iface × Option GoError) × World :=
  let usEast1Sess := sess.CopyRegion "us-east-1"
  let awsIamSess := sess.CopyEndpoint c.IamEndpoint
  let w2 := w1.modify a fun cl =>
    { cl with iamconn := some ⟨awsIamSess⟩, stsconn := some ⟨sess⟩ }
  match (if !c.SkipCredsValidation then
           env.ValidateCredentials c (w2.heap a).stsconn else none) with
  | some err => (.done (.nil, some err), w2)
  | none =>
    let w3 :=
      if !c.SkipRequestingAccountId then
        match env.GetAccountInfo (w2.heap a).iamconn (w2.heap a).stsconn cp.ProviderName with
        | .ok (partition, accountId) =>
          w2.modify a fun cl => { cl with partition := partition, accountid := accountId }
        | .error _ => w2
      else w2
    match env.ValidateAccountId c (w3.heap a).accountid with
    | some authErr => (.done (.nil, some authErr), w3)
    | none => getClientPublish subProvider a sess usEast1Sess w3

/-- Source `getClient`. The result is the returned pair `(interface, error)`
together with the state left behind; `client` is the `*AWSClient` argument. -/
def getClient (env : Env) (c : Config) (subProvider : String) (client : Option Addr)
    (w : World) : Run (Iface × Option GoError) × World :=
  match (if c.SkipRegionValidation then none else env.ValidateRegion c) with
  | some err => (.done (.nil, some err), w)
  | none =>
    match client with
    | none => (.panic "invalid memory address or nil pointer dereference", w)
    | some a =>
      let w1 := w.modify a fun cl => { cl with region := c.Region, subProvider := subProvider }
      match env.GetCredentials c with
      | .error err => (.done (.nil, some err), w1)
      | .ok creds =>
        match env.CredsGet creds with
        | .error err =>
          if isAwsErrWithCode err "NoCredentialProviders" then
            (.done (.nil, some (.plain noCredentialSourcesMessage)), w1)
          else
            (.done (.nil, some (.plain
              ("Error loading credentials for AWS Provider: " ++ err.Error))), w1)
        | .ok cp =>
          let awsConfig := sessionConfig c creds
          match env.NewSession awsConfig with
          | .error err =>
            (.done (.nil, some (.plain ("Error creating AWS session: " ++ err.Error))), w1)
          | .ok sess => getClientWithSession env c subProvider a cp sess w1

/-- Source `resourceAwsGoRoute53Wait`: one poll of the change endpoint. A method
call on a nil `*route53.Route53` panics. -/
def resourceAwsGoRoute53Wait (env : Env) (r53 : Option Route53) (ref : GetChangeInput)
    (poll : Nat) : Run RefreshResult :=
  match r53 with
  | none => .panic "invalid memory address or nil pointer dereference"
  | some conn =>
    match env.GetChange conn ref poll with
    | .error err => .done { result := none, state := "UNKNOWN", err := some err }
    | .ok status =>
      match status.ChangeInfoStatus with
      | none => .panic "invalid memory address or nil pointer dereference"
      | some st => .done { result := some true, state := st, err := none }

/-! ## Resource data and lifecycle operations -/

/-- Host `schema.ResourceData` for the two zone-association resources: the ID and
the string attributes the package reads with `d.Get` (an unset one reads `""`). -/
structure ResourceData where
  id : String
  zone_id : String
  vpc_id : String
  vpc_region : String
  sub_provider : String
  deriving DecidableEq, Repr

/-- Host `d.Id()`. -/
def ResourceData.Id (d : ResourceData) : String := d.id

/-- Host `d.SetId(v)`. -/
def ResourceData.SetId (d : ResourceData) (v : String) : ResourceData := { d with id := v }

/-- What a lifecycle operation leaves behind: what it returned (`none` is the nil
error) or that it panicked, the resource data it wrote through `d`, and the state. -/
structure Outcome where
  result : Run (Option GoError)
  d : ResourceData
  w : World

/-- Go `func(d *schema.ResourceData, meta interface{}) error`. -/
abbrev LifecycleOp := ResourceData → Iface → World → Outcome

/-! ## resource_aws_route53_zone_association.go: the dispatch shim -/

/-- Source `getSubProvider`: the `*AWSClient` from `getClientByName`, returned as
an `interface{}`; a nil pointer therefore comes back as a non-nil interface. -/
def getSubProvider (w : World) (d : ResourceData) (_meta : Iface) : Iface :=
  let subProvider := d.sub_provider
  .awsClient (getClientByName w subProvider)

/-- The message of `getTerraformAwsProvider`. -/
def cannotGetProviderMessage : String :=
  "Cannot get provider, sub_provider is not set or points to not existing provider?"

/-- Source `getTerraformAwsProvider`: `meta == nil` compares with the nil
interface; `&(meta.(*AWSClient).AWSClient)` needs a non-nil `*AWSClient` and
yields the pointer to its embedded base context. -/
def getTerraformAwsProvider (w : World) (d : ResourceData) (meta : Iface)
    (useSubProvider : Bool) : Run (Iface × Option GoError) :=
  let meta := if useSubProvider then getSubProvider w d meta else meta
  if meta = Iface.nil then
    .done (.nil, some (.plain cannotGetProviderMessage))
  else
    match meta.derefAWSClient with
    | .panic why => .panic why
    | .done a => .done (.tfAwsClient (some a), none)

/-- Source `route53Wrap`. -/
def route53Wrap (orig : LifecycleOp) (useSubProvider : Bool) : LifecycleOp :=
  fun d meta w =>
    match getTerraformAwsProvider w d meta useSubProvider with
    | .panic why => { result := .panic why, d := d, w := w }
    | .done (_, some err) => { result := .done (some err), d := d, w := w }
    | .done (meta, none) => orig d meta w

/-- The `resource.StateChangeConf` literal of
`resourceAwsRoute53ZoneAssociationCreate`: 30 s delay, 10 min timeout, 2 s minimal
gap, and the `Refresh` closure, which polls the change of `resp` with the DNS
client of the context registered under the resource's `sub_provider`. -/
def zoneAssociationWait (env : Env) (w : World) (d : ResourceData) (meta : Iface)
    (resp : AssociateVPCWithHostedZoneOutput) : StateChangeConf :=
  { Delay := 30, Pending := ["PENDING"], Target := ["INSYNC"], Timeout := 600,
    MinTimeout := 2,
    Refresh := fun poll =>
      match resp.ChangeInfoId with
      | none => .panic "invalid memory address or nil pointer dereference"
      | some changeId =>
        let changeRequest : GetChangeInput := { Id := cleanChangeID changeId }
        match (getSubProvider w d meta).derefAWSClient with
        | .panic why => .panic why
        | .done b => resourceAwsGoRoute53Wait env (w.heap b).r53conn changeRequest poll }

/-- The request of `resourceAwsRoute53ZoneAssociationCreate`: `VPCRegion` is the
region of the context `client`, replaced by `vpc_region` when that is not `""`. -/
def zoneAssociationRequest (d : ResourceData) (client : AWSClient) :
    AssociateVPCWithHostedZoneInput :=
  let req : AssociateVPCWithHostedZoneInput :=
    { HostedZoneId := d.zone_id, VPCId := d.vpc_id, VPCRegion := client.region,
      Comment := "Managed by Terraform" }
  if d.vpc_region ≠ "" then { req with VPCRegion := d.vpc_region } else req

/-- Source `resourceAwsRoute53ZoneAssociationCreate`. -/
def resourceAwsRoute53ZoneAssociationCreate (env : Env) : LifecycleOp :=
  fun d meta w =>
    match meta.derefAWSClient with
    | .panic why => { result := .panic why, d := d, w := w }
    | .done a =>
      let r53 := (w.heap a).r53conn
      let req := zoneAssociationRequest d (w.heap a)
      match r53 with
      | none =>
        { result := .panic "invalid memory address or nil pointer dereference", d := d, w := w }
      | some conn =>
        match env.AssociateVPCWithHostedZone conn req with
        | .error err => { result := .done (some err), d := d, w := w }
        | .ok resp =>
          let d1 := d.SetId (sprintfColon req.HostedZoneId req.VPCId)
          let d2 := { d1 with vpc_region := req.VPCRegion }
          let wait := zoneAssociationWait env w d2 meta resp
          match env.WaitForState wait with
          | .panic why => { result := .panic why, d := d2, w := w }
          | .done (some err) => { result := .done (some err), d := d2, w := w }
          | .done none => { result := .done none, d := d2, w := w }

/-- Host `schema.Schema`, the three fields the package sets (`ValueType` is the
Go field `Type`). -/
structure Schema where
  ValueType : String
  Optional : Bool
  Default : String
  deriving DecidableEq, Repr

/-- Host `schema.Resource`: the schema map and the four lifecycle hooks. -/
structure Resource where
  Schema : String → Option Schema
  Create : LifecycleOp
  Read : LifecycleOp
  Update : LifecycleOp
  Delete : LifecycleOp

/-- Source `resourceAwsRoute53ZoneAssociation`; `found` is the upstream entry
`awsprovider.ResourcesMap["aws_route53_zone_association"]`, `none` when missing.
`res.Update` inside the new `Create` is the hook as rebound just above it. -/
def resourceAwsRoute53ZoneAssociation (env : Env) (found : Option Resource) : Run Resource :=
  match found with
  | none => .panic "cannot find aws_route53_zone_association in AWS provider"
  | some res =>
    let schema := fun k =>
      if k = "sub_provider" then
        some { ValueType := "TypeString", Optional := true, Default := "" }
      else res.Schema k
    let read := route53Wrap res.Read true
    let update := route53Wrap res.Update true
    let delete := route53Wrap res.Delete false
    let create : LifecycleOp := fun d meta w =>
      let o := resourceAwsRoute53ZoneAssociationCreate env d meta w
      match o.result with
      | .panic _ => o
      | .done (some _) => o
      | .done none =>
        match getTerraformAwsProvider o.w o.d meta true with
        | .panic why => { result := .panic why, d := o.d, w := o.w }
        | .done (_, some err) => { result := .done (some err), d := o.d, w := o.w }
        | .done (meta, none) => update o.d meta o.w
    .done { Schema := schema, Create := create, Read := read, Update := update,
            Delete := delete }

/-! ## resource_aws_route53_zone_association_authorization.go -/

/-- The loop of `Read` over `zone.VPCs`: `true` as soon as `vpc_id == *vpc.VPCId`;
dereferencing a nil entry or a nil `VPCId` panics. -/
def findVPC (vpc_id : String) : List (Option VPC) → Run Bool
  | [] => .done false
  | none :: _ => .panic "invalid memory address or nil pointer dereference"
  | some vpc :: rest =>
    match vpc.VPCId with
    | none => .panic "invalid memory address or nil pointer dereference"
    | some id => if vpc_id = id then .done true else findVPC vpc_id rest

/-- Source `resourceAwsRoute53ZoneAssociationAuthorizationRead`. -/
def resourceAwsRoute53ZoneAssociationAuthorizationRead (env : Env) : LifecycleOp :=
  fun d meta w =>
    match meta.derefAWSClient with
    | .panic why => { result := .panic why, d := d, w := w }
    | .done a =>
      let r53 := (w.heap a).r53conn
      match resourceAwsRoute53ZoneAssociationAuthorizationParseId d.Id with
      | .panic why => { result := .panic why, d := d, w := w }
      | .done (zone_id, vpc_id) =>
        match r53 with
        | none =>
          { result := .panic "invalid memory address or nil pointer dereference", d := d,
            w := w }
        | some conn =>
          match env.ListVPCAssociationAuthorizations conn { HostedZoneId := zone_id } with
          | .error err =>
            if isAwsErrWithCode err "NoSuchHostedZone" then
              { result := .done none, d := d.SetId "", w := w }
            else
              { result := .done (some err), d := d, w := w }
          | .ok zone =>
            match findVPC vpc_id zone.VPCs with
            | .panic why => { result := .panic why, d := d, w := w }
            | .done true => { result := .done none, d := d, w := w }
            | .done false => { result := .done none, d := d.SetId "", w := w }

/-- Source `resourceAwsRoute53ZoneAssociationAuthorizationCreate`. -/
def resourceAwsRoute53ZoneAssociationAuthorizationCreate (env : Env) : LifecycleOp :=
  fun d meta w =>
    match meta.assertAWSClient with
    | .panic why => { result := .panic why, d := d, w := w }
    | .done none =>
      { result := .panic "invalid memory address or nil pointer dereference", d := d, w := w }
    | .done (some a) =>
      let r53 := (w.heap a).r53conn
      let req : VPCAssociationAuthorizationInput :=
        { HostedZoneId := d.zone_id, VPCId := d.vpc_id, VPCRegion := (w.heap a).region }
      let req := if d.vpc_region ≠ "" then { req with VPCRegion := d.vpc_region } else req
      match r53 with
      | none =>
        { result := .panic "invalid memory address or nil pointer dereference", d := d, w := w }
      | some conn =>
        match env.CreateVPCAssociationAuthorization conn req with
        | some err => { result := .done (some err), d := d, w := w }
        | none =>
          let d1 := d.SetId (sprintfColon req.HostedZoneId req.VPCId)
          let d2 := { d1 with vpc_region := req.VPCRegion }
          resourceAwsRoute53ZoneAssociationAuthorizationRead env d2 meta w

/-- Source `resourceAwsRoute53ZoneAssociationAuthorizationDelete`. -/
def resourceAwsRoute53ZoneAssociationAuthorizationDelete (env : Env) : LifecycleOp :=
  fun d meta w =>
    match meta.derefAWSClient with
    | .panic why => { result := .panic why, d := d, w := w }
    | .done a =>
      let r53 := (w.heap a).r53conn
      match resourceAwsRoute53ZoneAssociationAuthorizationParseId d.Id with
      | .panic why => { result := .panic why, d := d, w := w }
      | .done (zone_id, vpc_id) =>
        let req : VPCAssociationAuthorizationInput :=
          { HostedZoneId := zone_id, VPCId := vpc_id, VPCRegion := d.vpc_region }
        match r53 with
        | none =>
          { result := .panic "invalid memory address or nil pointer dereference", d := d,
            w := w }
        | some conn =>
          match env.DeleteVPCAssociationAuthorization conn req with
          | some err => { result := .done (some err), d := d, w := w }
          | none => { result := .done none, d := d, w := w }

/-! ## Shapes of a run of the provider factory -/

/-- A run that failed: an error or a panic, with `providers` as it was. -/
def FailedRun (w : World) (r : Run (Iface × Option GoError) × World) : Prop :=
  ((∃ err, r.1 = .done (.nil, some err)) ∨ (∃ why, r.1 = .panic why)) ∧
    r.2.providers = w.providers

/-- What a run of the provider factory may look like: it fails (error or panic)
and leaves `providers` as it was, or it returns the pointer `a` and has registered
it when the label is non-empty. -/
def FactoryRun (L : String) (a : Addr) (w : World)
    (r : Run (Iface × Option GoError) × World) : Prop :=
  (((∃ err, r.1 = .done (.nil, some err)) ∨ (∃ why, r.1 = .panic why)) ∧
      r.2.providers = w.providers) ∨
    (r.1 = .done (.awsClient (some a), none) ∧
      r.2.providers = if L ≠ "" then (w.register L (some a)).providers else w.providers)

/-! ## Sample collaborators and states, used to instantiate the theorems -/

/-- A zeroed `AWSClient` around a base context, as `providerConfigure` allocates it. -/
def freshClient (base : TfAWSClient) : AWSClient :=
  { AWSClient := base, region := "", partition := "", accountid := "", subProvider := "",
    r53conn := none, iamconn := none, stsconn := none, dxconn := none }

/-- A sample base session. -/
def sampleSession (region : String) : Session :=
  { Config := { Credentials := ⟨1⟩, Region := region, MaxRetries := 25, Insecure := false,
                S3ForcePathStyle := false, Endpoint := none } }

/-- A sample initialised context for a region. -/
def sampleClient (n : Nat) (region label : String) : AWSClient :=
  { AWSClient := ⟨n⟩, region := region, partition := "aws", accountid := "222222222222",
    subProvider := label, r53conn := some ⟨(sampleSession region).CopyRegion "us-east-1"⟩,
    iamconn := some ⟨sampleSession region⟩, stsconn := some ⟨sampleSession region⟩,
    dxconn := some ⟨sampleSession region⟩ }

/-- Sample state: the default context at address 0 (region `eu-west-1`), the
context labelled `peer` at address 1 (region `us-east-1`); nothing else registered. -/
def sampleWorld : World :=
  { providers := fun l => if l = "peer" then some 1 else none,
    heap := fun a =>
      if a = 0 then sampleClient 0 "eu-west-1" ""
      else if a = 1 then sampleClient 1 "us-east-1" "peer"
      else freshClient ⟨a⟩ }

/-- A waiter that polls `Refresh` at most `fuel` times: an error or a panic of
`Refresh` ends it, a target state is success, running out of polls is a timeout. -/
def sampleWaitLoop (conf : StateChangeConf) : Nat → Nat → Run (Option GoError)
  | 0, _ => .done (some (.plain "timeout while waiting for state"))
  | fuel + 1, poll =>
    match conf.Refresh poll with
    | .panic why => .panic why
    | .done r =>
      match r.err with
      | some err => .done (some err)
      | none => if r.state ∈ conf.Target then .done none else sampleWaitLoop conf fuel (poll + 1)

/-- Sample collaborators: configuration checks pass unless the region is empty,
the account is `222222222222`, account lists are enforced, zone `Z9` lists the
VPCs `vpc-77` and `vpc-78`, zone `Zgone` does not exist, any other zone is
refused, and a change is `PENDING` on the first poll and `INSYNC` afterwards. -/
def sampleEnv : Env :=
  { ValidateRegion := fun c =>
      if c.Region = "" then some (.plain "Not a valid region: ") else none,
    GetCredentials := fun _ => .ok ⟨1⟩,
    CredsGet := fun _ => .ok ⟨"StaticProvider"⟩,
    NewSession := fun cfg => .ok ⟨cfg⟩,
    ValidateCredentials := fun _ _ => none,
    GetAccountInfo := fun _ _ _ => .ok ("aws", "222222222222"),
    ValidateAccountId := fun c acct =>
      if acct ∈ c.ForbiddenAccountIds then
        some (.plain ("Forbidden account ID (" ++ acct ++ ")"))
      else if c.AllowedAccountIds ≠ [] ∧ acct ∉ c.AllowedAccountIds then
        some (.plain ("Account ID not allowed (" ++ acct ++ ")"))
      else none,
    AssociateVPCWithHostedZone := fun _ req =>
      if req.HostedZoneId = "Zgone" then .error (.aws "NoSuchHostedZone" "no such zone")
      else .ok ⟨some "/change/C2682N5HXP0BZ4"⟩,
    CreateVPCAssociationAuthorization := fun _ _ => none,
    DeleteVPCAssociationAuthorization := fun _ _ => none,
    ListVPCAssociationAuthorizations := fun _ req =>
      if req.HostedZoneId = "Z9" then
        .ok ⟨[some ⟨some "vpc-77", some "eu-west-1"⟩, some ⟨some "vpc-78", some "eu-west-1"⟩]⟩
      else if req.HostedZoneId = "Zgone" then
        .error (.aws "NoSuchHostedZone" "no such zone")
      else .error (.aws "AccessDenied" "not authorized"),
    GetChange := fun _ _ poll =>
      if poll = 0 then .ok ⟨some "PENDING"⟩ else .ok ⟨some "INSYNC"⟩,
    WaitForState := fun conf => sampleWaitLoop conf 3 0 }

/-- The collaborators of `sampleEnv` with a waiter that always times out. -/
def sampleEnvTimeout : Env :=
  { sampleEnv with
    WaitForState := fun _ => .done (some (.plain "timeout while waiting for state")) }

/-- A sample configuration for a region and the two account lists. -/
def sampleConfig (region : String) (allowed forbidden : List String) : Config :=
  { AccessKey := "AKIA", SecretKey := "secret", Profile := "", CredsFilename := "",
    Token := "", Region := region, MaxRetries := 25, Insecure := false,
    SkipCredsValidation := false, SkipRegionValidation := false,
    SkipRequestingAccountId := false, SkipMetadataApiCheck := false,
    S3ForcePathStyle := false, IamEndpoint := "", AllowedAccountIds := allowed,
    ForbiddenAccountIds := forbidden }

/-- A sample zone association before `Create`. -/
def sampleData (sub_provider : String) : ResourceData :=
  { id := "", zone_id := "Z123ABC", vpc_id := "vpc-0a1b2c3d", vpc_region := "",
    sub_provider := sub_provider }

/-- A sample authorization with a given ID. -/
def sampleAuthorization (id : String) : ResourceData :=
  { id := id, zone_id := "Z9", vpc_id := "vpc-77", vpc_region := "eu-west-1",
    sub_provider := "" }

/-- A lifecycle operation that leaves a mark each time it runs: it appends `!` to
the ID and returns an error naming the context it was given. -/
def sampleOp : LifecycleOp :=
  fun d meta w =>
    { result := .done (some (.plain (match meta with
        | .tfAwsClient (some a) => "base of " ++ toString a
        | _ => "other"))),
      d := d.SetId (d.Id ++ "!"), w := w }

/-! ## Theorems -/

theorem cutFirst_none_iff (sep : Char) (s : List Char) :
    cutFirst sep s = none ↔ sep ∉ s := by
  induction s with
  | nil => simp [cutFirst]
  | cons c cs ih =>
    by_cases h : c = sep
    · simp [cutFirst, h]
    · have h2 : ¬ sep = c := fun e => h e.symm
      cases hc : cutFirst sep cs with
      | none => simp [cutFirst, h, hc, h2, ih.mp hc]
      | some p =>
        have : sep ∈ cs := by
          by_contra hn
          rw [ih.mpr hn] at hc
          cases hc
        simp [cutFirst, h, hc, this]

theorem cutFirst_some (sep : Char) (s a b : List Char) (h : cutFirst sep s = some (a, b)) :
    s = a ++ sep :: b ∧ sep ∉ a := by
  induction s generalizing a b with
  | nil => simp [cutFirst] at h
  | cons c cs ih =>
    by_cases hc : c = sep
    · simp [cutFirst, hc] at h
      obtain ⟨rfl, rfl⟩ := h
      simp [hc]
    · cases hr : cutFirst sep cs with
      | none => simp [cutFirst, hc, hr] at h
      | some p =>
        obtain ⟨a', b'⟩ := p
        simp [cutFirst, hc, hr] at h
        obtain ⟨rfl, rfl⟩ := h
        obtain ⟨h1, h2⟩ := ih a' b' hr
        refine ⟨by simp [h1], ?_⟩
        simp only [List.mem_cons, not_or]
        exact ⟨fun e => hc e.symm, h2⟩

theorem cutFirst_append (sep : Char) (a b : List Char) (h : sep ∉ a) :
    cutFirst sep (a ++ sep :: b) = some (a, b) := by
  induction a with
  | nil => simp [cutFirst]
  | cons c cs ih =>
    simp only [List.mem_cons, not_or] at h
    have hc : ¬ c = sep := fun e => h.1 e.symm
    simp [cutFirst, hc, ih h.2]

theorem length_eq_data_length (p : String) : p.length = p.data.length := rfl

theorem hasPrefix_iff (s p : String) :
    HasPrefix s p = true ↔ ∃ t : String, s = p ++ t := by
  constructor
  · intro h
    simp only [HasPrefix, Bool.and_eq_true, decide_eq_true_eq] at h
    refine ⟨⟨s.data.drop p.length⟩, ?_⟩
    apply String.ext
    rw [String.data_append]
    conv_lhs => rw [← List.take_append_drop p.length s.data]
    rw [h.2]
  · rintro ⟨t, rfl⟩
    simp only [HasPrefix, length_eq_data_length, String.data_append, List.length_append,
      List.take_left', Bool.and_eq_true, decide_eq_true_eq]
    exact ⟨by omega, trivial⟩

theorem trimPrefix_append (p t : String) : TrimPrefix (p ++ t) p = t := by
  have h : HasPrefix (p ++ t) p = true := (hasPrefix_iff _ _).mpr ⟨t, rfl⟩
  simp only [TrimPrefix, h, if_true]
  apply String.ext
  simp only [length_eq_data_length, String.data_append, List.drop_left']

theorem splitN_two_of_mem (s : List Char) (sep : Char) (h : sep ∈ s) :
    ∃ a b, SplitN s sep 2 = [a, b] ∧ s = a ++ sep :: b ∧ sep ∉ a := by
  cases hc : cutFirst sep s with
  | none => exact absurd h ((cutFirst_none_iff sep s).mp hc)
  | some p =>
    obtain ⟨a, b⟩ := p
    exact ⟨a, b, by simp [SplitN, hc], cutFirst_some sep s a b hc⟩

theorem splitN_two_of_not_mem (s : List Char) (sep : Char) (h : sep ∉ s) :
    SplitN s sep 2 = [s] := by
  simp [SplitN, (cutFirst_none_iff sep s).mpr h]

/-- C8: parsing the composite ID built from a zone ID and a VPC ID, neither
containing a colon, gives back exactly that pair. -/
theorem parseId_format_roundtrip (zone_id vpc_id : String)
    (hz : ':' ∉ zone_id.data) (_hv : ':' ∉ vpc_id.data) :
    resourceAwsRoute53ZoneAssociationAuthorizationParseId (sprintfColon zone_id vpc_id)
      = .done (zone_id, vpc_id) := by
  have h : (sprintfColon zone_id vpc_id).data = zone_id.data ++ ':' :: vpc_id.data := by
    simp [sprintfColon, String.data_append]
  simp [resourceAwsRoute53ZoneAssociationAuthorizationParseId, h, SplitN,
    cutFirst_append ':' _ _ hz]

theorem parseId_format_roundtrip_witness :
    resourceAwsRoute53ZoneAssociationAuthorizationParseId
      (sprintfColon "Z123ABC" "vpc-0a1b2c3d") = .done ("Z123ABC", "vpc-0a1b2c3d") :=
  parseId_format_roundtrip "Z123ABC" "vpc-0a1b2c3d" (by decide) (by decide)

/-- C9: `cleanChangeID` removes exactly one leading "/change/" and leaves a
string without that prefix as it is. -/
theorem cleanChangeID_spec (s : String) :
    cleanChangeID ("/change/" ++ s) = s ∧
      ((∀ t : String, s ≠ "/change/" ++ t) → cleanChangeID s = s) := by
  constructor
  · have h : HasPrefix ("/change/" ++ s) "/change/" = true :=
      (hasPrefix_iff _ _).mpr ⟨s, rfl⟩
    simp only [cleanChangeID, cleanPrefix, h, if_true]
    exact trimPrefix_append _ _
  · intro hn
    have h : HasPrefix s "/change/" = false := by
      cases hp : HasPrefix s "/change/" with
      | false => rfl
      | true =>
        obtain ⟨t, ht⟩ := (hasPrefix_iff _ _).mp hp
        exact absurd ht (hn t)
    simp [cleanChangeID, cleanPrefix, h]

theorem cleanChangeID_spec_witness :
    cleanChangeID ("/change/" ++ "/change/C2682N5HXP0BZ4") = "/change/C2682N5HXP0BZ4" ∧
      cleanChangeID "C2682N5HXP0BZ4" = "C2682N5HXP0BZ4" :=
  ⟨(cleanChangeID_spec "/change/C2682N5HXP0BZ4").1,
   (cleanChangeID_spec "C2682N5HXP0BZ4").2 (by
      intro t h
      have h2 := congrArg (fun x : String => x.data.head?) h
      simp [String.data_append] at h2)⟩

/-- C10: `ParseId` splits at the first colon. For an ID with a colon it returns
the text before the first colon (which has no colon) and everything after it, and
the two joined by a colon are the ID; for an ID without a colon, the empty ID
included, indexing the second part panics, so a pair is returned only for IDs with
a colon. -/
theorem parseId_splits_at_first_colon (id : String) :
    (':' ∈ id.data → ∃ a b : String,
        resourceAwsRoute53ZoneAssociationAuthorizationParseId id = .done (a, b) ∧
        ':' ∉ a.data ∧ a ++ ":" ++ b = id) ∧
    (':' ∉ id.data → ∃ why,
        resourceAwsRoute53ZoneAssociationAuthorizationParseId id = .panic why) ∧
    (∀ a b, resourceAwsRoute53ZoneAssociationAuthorizationParseId id = .done (a, b) →
        ':' ∈ id.data) ∧
    (∃ why, resourceAwsRoute53ZoneAssociationAuthorizationParseId "" = .panic why) := by
  have hno : ∀ s : String, ':' ∉ s.data → ∃ why,
      resourceAwsRoute53ZoneAssociationAuthorizationParseId s = .panic why := by
    intro s h
    refine ⟨"index out of range [1] with length 1", ?_⟩
    simp [resourceAwsRoute53ZoneAssociationAuthorizationParseId, splitN_two_of_not_mem _ _ h]
  refine ⟨?_, hno id, ?_, hno "" (by simp)⟩
  · intro h
    obtain ⟨a, b, hs, hid, ha⟩ := splitN_two_of_mem id.data ':' h
    refine ⟨⟨a⟩, ⟨b⟩, ?_, ha, ?_⟩
    · simp [resourceAwsRoute53ZoneAssociationAuthorizationParseId, hs]
    · apply String.ext
      simp [String.data_append, hid]
  · intro a b hab
    by_contra hn
    obtain ⟨why, hw⟩ := hno id hn
    rw [hw] at hab
    cases hab

theorem parseId_splits_at_first_colon_witness :
    (∃ a b : String,
        resourceAwsRoute53ZoneAssociationAuthorizationParseId "Z9:vpc-77:x" = .done (a, b) ∧
        ':' ∉ a.data ∧ a ++ ":" ++ b = "Z9:vpc-77:x") ∧
      (∃ why, resourceAwsRoute53ZoneAssociationAuthorizationParseId "Z9vpc-77" = .panic why) :=
  ⟨(parseId_splits_at_first_colon "Z9:vpc-77:x").1 (by decide),
   (parseId_splits_at_first_colon "Z9vpc-77").2.1 (by decide)⟩

/-! ### The dispatch shim -/

theorem getTerraformAwsProvider_unregistered (w : World) (d : ResourceData) (meta : Iface)
    (h : getClientByName w d.sub_provider = none) :
    getTerraformAwsProvider w d meta true =
      .panic "invalid memory address or nil pointer dereference" := by
  simp [getTerraformAwsProvider, getSubProvider, h, Iface.derefAWSClient,
    Iface.assertAWSClient]

theorem route53Wrap_unregistered (orig : LifecycleOp) (w : World) (d : ResourceData)
    (meta : Iface) (h : getClientByName w d.sub_provider = none) :
    route53Wrap orig true d meta w =
      { result := .panic "invalid memory address or nil pointer dereference", d := d,
        w := w } := by
  simp [route53Wrap, getTerraformAwsProvider_unregistered w d meta h]

/-- The only way to the "Cannot get provider" error: the shim is asked not to
switch and the host passes the nil interface. -/
theorem getTerraformAwsProvider_nil_default (w : World) (d : ResourceData) :
    getTerraformAwsProvider w d .nil false =
      .done (.nil, some (.plain cannotGetProviderMessage)) := by
  simp [getTerraformAwsProvider]

/-- C1: with `sub_provider` empty and with `sub_provider` naming an unregistered
label, `route53Wrap(orig, true)` does not return the "Cannot get provider" error:
the lookup yields a nil `*AWSClient` inside a non-nil interface, the `meta == nil`
test is false and taking the address of the embedded base panics. It does so for
every `orig` and every `meta`, so `orig` is not run. -/
theorem route53Wrap_missing_label_panics :
    ∀ (orig : LifecycleOp) (meta : Iface),
      (route53Wrap orig true (sampleData "") meta sampleWorld).result =
          .panic "invalid memory address or nil pointer dereference" ∧
      (route53Wrap orig true (sampleData "nobody") meta sampleWorld).result =
          .panic "invalid memory address or nil pointer dereference" ∧
      (route53Wrap orig true (sampleData "") meta sampleWorld).result ≠
          .done (some (.plain cannotGetProviderMessage)) := by
  intro orig meta
  have h1 : getClientByName sampleWorld (sampleData "").sub_provider = none := by decide
  have h2 : getClientByName sampleWorld (sampleData "nobody").sub_provider = none := by
    decide
  rw [route53Wrap_unregistered orig _ _ meta h1, route53Wrap_unregistered orig _ _ meta h2]
  exact ⟨rfl, rfl, by simp⟩

/-- C2: `route53Wrap(orig, false)` on a non-nil default context runs `orig` once,
on the base context embedded in that default context, and returns what `orig`
returns; `route53Wrap(orig, true)`, when the resource's `sub_provider` is
registered, runs `orig` once on the base context embedded in the registered
context, whatever the default context is. The zone association binds Read and
Update with `true` and Delete with `false`. -/
theorem route53Wrap_dispatch (orig : LifecycleOp) (d : ResourceData) (w : World) :
    (∀ a : Addr, route53Wrap orig false d (.awsClient (some a)) w =
        orig d (.tfAwsClient (some a)) w) ∧
    (∀ (m : Iface) (b : Addr), getClientByName w d.sub_provider = some b →
        route53Wrap orig true d m w = orig d (.tfAwsClient (some b)) w) ∧
    (∀ (env : Env) (res : Resource), ∃ r : Resource,
        resourceAwsRoute53ZoneAssociation env (some res) = .done r ∧
        r.Read = route53Wrap res.Read true ∧ r.Update = route53Wrap res.Update true ∧
        r.Delete = route53Wrap res.Delete false) := by
  refine ⟨?_, ?_, ?_⟩
  · intro a
    simp [route53Wrap, getTerraformAwsProvider, Iface.derefAWSClient, Iface.assertAWSClient]
  · intro m b h
    simp [route53Wrap, getTerraformAwsProvider, getSubProvider, h, Iface.derefAWSClient,
      Iface.assertAWSClient]
  · intro env res
    exact ⟨_, rfl, rfl, rfl, rfl⟩

theorem route53Wrap_dispatch_witness :
    getClientByName sampleWorld (sampleData "peer").sub_provider = some 1 ∧
      route53Wrap sampleOp true (sampleData "peer") (.awsClient (some 0)) sampleWorld =
        sampleOp (sampleData "peer") (.tfAwsClient (some 1)) sampleWorld ∧
      (route53Wrap sampleOp false (sampleData "peer") (.awsClient (some 0)) sampleWorld).d.Id
        = "!" :=
  ⟨by decide,
   (route53Wrap_dispatch sampleOp (sampleData "peer") sampleWorld).2.1 _ 1 (by decide),
   by rw [(route53Wrap_dispatch sampleOp (sampleData "peer") sampleWorld).1 0]; decide⟩

/-! ### The provider factory and the session cache -/

theorem modify_providers (w : World) (a : Addr) (f : AWSClient → AWSClient) :
    (w.modify a f).providers = w.providers := rfl

theorem register_lookup (w : World) (k : String) (p : Option Addr) :
    getClientByName (w.register k p) k = p := by
  simp [getClientByName, World.register]

theorem getClientPublish_run (L : String) (a : Addr) (sess us : Session) (w w3 : World)
    (h : w3.providers = w.providers) : FactoryRun L a w (getClientPublish L a sess us w3) := by
  right
  refine ⟨rfl, ?_⟩
  by_cases hL : L = ""
  · simp [getClientPublish, hL, modify_providers, h]
  · simp [getClientPublish, hL, modify_providers, World.register, h]

theorem getClientWithSession_run (env : Env) (c : Config) (L : String) (a : Addr)
    (cp : CredValue) (sess : Session) (w w1 : World) (h : w1.providers = w.providers) :
    FactoryRun L a w (getClientWithSession env c L a cp sess w1) := by
  unfold getClientWithSession
  dsimp only
  repeat' split
  all_goals first
    | exact Or.inl ⟨Or.inl ⟨_, rfl⟩, by simp [modify_providers, h]⟩
    | exact getClientPublish_run L a _ _ w _ (by simp [modify_providers, h])

/-- Every run of `getClient` either fails (error or panic) and leaves `providers`
as it was, or returns its `client` argument and has registered it under a
non-empty label. -/
theorem getClient_cases (env : Env) (c : Config) (L : String) (client : Option Addr)
    (w : World) :
    FailedRun w (getClient env c L client w) ∨
      ∃ a : Addr, client = some a ∧ FactoryRun L a w (getClient env c L client w) := by
  unfold getClient
  dsimp only
  repeat' split
  all_goals first
    | exact Or.inl ⟨Or.inl ⟨_, rfl⟩, rfl⟩
    | exact Or.inl ⟨Or.inr ⟨_, rfl⟩, rfl⟩
    | exact Or.inr ⟨_, rfl,
        getClientWithSession_run env c L _ _ _ w _ (modify_providers w _ _)⟩

/-- C3: when `getClient` returns without error for a non-empty label, looking the
label up afterwards gives the very pointer the call returned (the `client` it was
given), whatever was registered under the label before. -/
theorem getClient_registers_returned_context (env : Env) (c : Config) (L : String)
    (client : Option Addr) (w : World) (ret : Iface) (hL : L ≠ "")
    (h : (getClient env c L client w).1 = .done (ret, none)) :
    ∃ a : Addr, client = some a ∧ ret = .awsClient (some a) ∧
      getClientByName (getClient env c L client w).2 L = some a := by
  rcases getClient_cases env c L client w with hf | ⟨a, ha, hr⟩
  · rcases hf with ⟨⟨err, he⟩ | ⟨why, hw⟩, _⟩
    · rw [he] at h; simp at h
    · rw [hw] at h; simp at h
  · rcases hr with ⟨⟨err, he⟩ | ⟨why, hw⟩, _⟩ | ⟨hres, hprov⟩
    · rw [he] at h; simp at h
    · rw [hw] at h; simp at h
    · rw [hres] at h
      simp only [Run.done.injEq, Prod.mk.injEq, and_true] at h
      refine ⟨a, ha, h.symm, ?_⟩
      simp [getClientByName, hprov, hL, World.register]

theorem getClient_registers_returned_context_witness :
    getClientByName sampleWorld "peer" = some 1 ∧
      ∃ a : Addr, some 7 = some a ∧ Iface.awsClient (some 7) = .awsClient (some a) ∧
        getClientByName
          (getClient sampleEnv (sampleConfig "eu-west-1" [] []) "peer" (some 7)
            sampleWorld).2 "peer" = some a :=
  ⟨by decide,
   getClient_registers_returned_context sampleEnv (sampleConfig "eu-west-1" [] []) "peer"
     (some 7) sampleWorld (.awsClient (some 7)) (by decide) (by decide)⟩

theorem modify_heap_of_ne (w : World) (a b : Addr) (f : AWSClient → AWSClient)
    (h : b ≠ a) : (w.modify a f).heap b = w.heap b := by
  simp [World.modify, h]

theorem getClientWithSession_frame (env : Env) (c : Config) (L : String) (a b : Addr)
    (cp : CredValue) (sess : Session) (w1 : World) (h : b ≠ a) :
    (getClientWithSession env c L a cp sess w1).2.heap b = w1.heap b := by
  unfold getClientWithSession getClientPublish
  dsimp only
  repeat' split
  all_goals simp [modify_heap_of_ne, World.register, h]

/-- The only `AWSClient` object `getClient` writes to is the one `client` points at:
a context registered earlier at another address keeps all its fields. -/
theorem getClient_frame (env : Env) (c : Config) (L : String) (client : Option Addr)
    (w : World) (b : Addr) (h : client ≠ some b) :
    (getClient env c L client w).2.heap b = w.heap b := by
  cases client with
  | none =>
    unfold getClient
    dsimp only
    repeat' split
    all_goals rfl
  | some a =>
    have hb : b ≠ a := fun e => h (by rw [e])
    unfold getClient
    dsimp only
    repeat' split
    all_goals first
      | rfl
      | simp [getClientWithSession_frame, modify_heap_of_ne, hb]

theorem getClientWithSession_rejected (env : Env) (c : Config) (L : String) (a : Addr)
    (cp : CredValue) (sess : Session) (w1 : World) (partition acct : String)
    (authErr : GoError)
    (hval : c.SkipCredsValidation = true ∨ env.ValidateCredentials c (some ⟨sess⟩) = none)
    (hskip : c.SkipRequestingAccountId = false)
    (hinfo : env.GetAccountInfo (some ⟨sess.CopyEndpoint c.IamEndpoint⟩) (some ⟨sess⟩)
      cp.ProviderName = .ok (partition, acct))
    (hrej : env.ValidateAccountId c acct = some authErr) :
    (getClientWithSession env c L a cp sess w1).1 = .done (.nil, some authErr) := by
  have hv : (if c.SkipCredsValidation = false then
      env.ValidateCredentials c (some ⟨sess⟩) else none) = none := by
    rcases hval with h | h
    · simp [h]
    · simp [h]
  simp [getClientWithSession, World.modify, hv, hskip, hinfo, hrej]

/-- C4: a call of `getClient` that returns an error, or that is made with the
empty label, leaves the session cache exactly as it was. In particular, when all
earlier steps pass and the resolved account ID is rejected by the account-list
check, `getClient` returns that very error and the label still maps to what it
mapped to before. -/
theorem getClient_failure_keeps_cache (env : Env) (c : Config) (L : String)
    (client : Option Addr) (w : World) :
    ((L = "" ∨ ∃ ret err, (getClient env c L client w).1 = .done (ret, some err)) →
        (getClient env c L client w).2.providers = w.providers) ∧
    (∀ (a : Addr) (creds : Creds) (cp : CredValue) (sess : Session)
        (partition acct : String) (authErr : GoError),
      client = some a →
      (c.SkipRegionValidation = true ∨ env.ValidateRegion c = none) →
      env.GetCredentials c = .ok creds →
      env.CredsGet creds = .ok cp →
      env.NewSession (sessionConfig c creds) = .ok sess →
      (c.SkipCredsValidation = true ∨ env.ValidateCredentials c (some ⟨sess⟩) = none) →
      c.SkipRequestingAccountId = false →
      env.GetAccountInfo (some ⟨sess.CopyEndpoint c.IamEndpoint⟩) (some ⟨sess⟩)
          cp.ProviderName = .ok (partition, acct) →
      env.ValidateAccountId c acct = some authErr →
      (getClient env c L client w).1 = .done (.nil, some authErr) ∧
        (getClient env c L client w).2.providers = w.providers ∧
        getClientByName (getClient env c L client w).2 L = getClientByName w L) := by
  have hA : (L = "" ∨ ∃ ret err, (getClient env c L client w).1 = .done (ret, some err)) →
      (getClient env c L client w).2.providers = w.providers := by
    intro h
    rcases getClient_cases env c L client w with hf | ⟨a, _, hf | ⟨hres, hprov⟩⟩
    · exact hf.2
    · exact hf.2
    · rcases h with hL | ⟨ret, err, he⟩
      · simpa [hL] using hprov
      · rw [hres] at he
        simp at he
  refine ⟨hA, ?_⟩
  intro a creds cp sess partition acct authErr hc hreg hcreds hget hsess hval hskip hinfo hrej
  subst hc
  have hr : (if c.SkipRegionValidation = true then none else env.ValidateRegion c) = none := by
    rcases hreg with h | h
    · simp [h]
    · simp [h]
  have hres : (getClient env c L (some a) w).1 = .done (.nil, some authErr) := by
    simp only [getClient, hr, hcreds, hget, hsess]
    exact getClientWithSession_rejected env c L a cp sess _ partition acct authErr hval hskip
      hinfo hrej
  have hp := hA (Or.inr ⟨_, _, hres⟩)
  exact ⟨hres, hp, by simp [getClientByName, hp]⟩

theorem getClient_failure_keeps_cache_witness :
    sampleEnv.ValidateAccountId (sampleConfig "eu-west-1" ["111111111111"] [])
        "222222222222" = some (.plain "Account ID not allowed (222222222222)") ∧
      ((getClient sampleEnv (sampleConfig "eu-west-1" ["111111111111"] []) "peer2" (some 7)
          sampleWorld).1 = .done (.nil, some (.plain "Account ID not allowed (222222222222)")) ∧
       (getClient sampleEnv (sampleConfig "eu-west-1" ["111111111111"] []) "peer2" (some 7)
          sampleWorld).2.providers = sampleWorld.providers ∧
       getClientByName (getClient sampleEnv (sampleConfig "eu-west-1" ["111111111111"] [])
          "peer2" (some 7) sampleWorld).2 "peer2" = getClientByName sampleWorld "peer2") ∧
      (getClient sampleEnv (sampleConfig "eu-west-1" [] []) "" (some 7)
          sampleWorld).2.providers = sampleWorld.providers :=
  ⟨by decide,
   (getClient_failure_keeps_cache sampleEnv (sampleConfig "eu-west-1" ["111111111111"] [])
      "peer2" (some 7) sampleWorld).2 7 ⟨1⟩ ⟨"StaticProvider"⟩
      ⟨sessionConfig (sampleConfig "eu-west-1" ["111111111111"] []) ⟨1⟩⟩ "aws" "222222222222"
      (.plain "Account ID not allowed (222222222222)") rfl (Or.inr (by decide)) rfl rfl rfl
      (Or.inr rfl) rfl rfl (by decide),
   (getClient_failure_keeps_cache sampleEnv (sampleConfig "eu-west-1" [] []) "" (some 7)
      sampleWorld).1 (Or.inl rfl)⟩

/-! ### Zone-owner authorization: Read -/

theorem findVPC_of_wellformed (v : String) (vpcs : List (Option VPC))
    (hwf : ∀ e ∈ vpcs, ∃ vpc id, e = some vpc ∧ vpc.VPCId = some id) :
    (findVPC v vpcs = .done true ∧ ∃ vpc, some vpc ∈ vpcs ∧ vpc.VPCId = some v) ∨
    (findVPC v vpcs = .done false ∧ ¬ ∃ vpc, some vpc ∈ vpcs ∧ vpc.VPCId = some v) := by
  induction vpcs with
  | nil => right; simp [findVPC]
  | cons e rest ih =>
    obtain ⟨vpc, id, rfl, hid⟩ := hwf e (List.mem_cons_self _ _)
    have ih' := ih (fun e he => hwf e (List.mem_cons_of_mem _ he))
    by_cases hv : v = id
    · subst hv
      left
      exact ⟨by simp [findVPC, hid], vpc, List.mem_cons_self _ _, hid⟩
    · have hne : ¬ id = v := fun e => hv e.symm
      have hstep : findVPC v (some vpc :: rest) = findVPC v rest := by
        simp [findVPC, hid, hv]
      rw [hstep]
      rcases ih' with ⟨h1, x, hx, hxv⟩ | ⟨h1, h2⟩
      · exact Or.inl ⟨h1, x, List.mem_cons_of_mem _ hx, hxv⟩
      · right
        refine ⟨h1, ?_⟩
        rintro ⟨x, hx, hxv⟩
        rcases List.mem_cons.mp hx with hx | hx
        · have hx' : x = vpc := Option.some.inj hx
          subst hx'
          rw [hid] at hxv
          exact hne (Option.some.inj hxv)
        · exact h2 ⟨x, hx, hxv⟩

theorem sprintfColon_ne_empty (z v : String) : sprintfColon z v ≠ "" := by
  intro h
  have h2 := congrArg (fun x : String => x.data.length) h
  simp [sprintfColon, String.data_append] at h2

/-- C5: for an authorization whose composite ID is `z:v` (`z`, the zone the list
call is issued for, being the text before the first colon) and a successful list
response for zone `z` whose entries all carry an ID, `Read` returns success; it
leaves the ID as it was exactly when some entry of the response has the ID `v`,
and otherwise it sets the ID to the empty string. -/
theorem authorizationRead_present_iff (env : Env) (d : ResourceData) (a : Addr)
    (w : World) (conn : Route53) (z v : String)
    (resp : ListVPCAssociationAuthorizationsOutput)
    (hconn : (w.heap a).r53conn = some conn)
    (hid : d.Id = sprintfColon z v) (hz : ':' ∉ z.data)
    (hlist : env.ListVPCAssociationAuthorizations conn { HostedZoneId := z } = .ok resp)
    (hwf : ∀ e ∈ resp.VPCs, ∃ vpc id, e = some vpc ∧ vpc.VPCId = some id) :
    (resourceAwsRoute53ZoneAssociationAuthorizationRead env d (.awsClient (some a)) w).result
        = .done none ∧
    ((resourceAwsRoute53ZoneAssociationAuthorizationRead env d (.awsClient (some a)) w).d.Id
        = d.Id ↔ ∃ vpc, some vpc ∈ resp.VPCs ∧ vpc.VPCId = some v) ∧
    ((¬ ∃ vpc, some vpc ∈ resp.VPCs ∧ vpc.VPCId = some v) →
      (resourceAwsRoute53ZoneAssociationAuthorizationRead env d (.awsClient (some a)) w).d
        = d.SetId "") := by
  have hp : resourceAwsRoute53ZoneAssociationAuthorizationParseId d.Id = .done (z, v) := by
    rw [hid]
    have h : (sprintfColon z v).data = z.data ++ ':' :: v.data := by
      simp [sprintfColon, String.data_append]
    simp [resourceAwsRoute53ZoneAssociationAuthorizationParseId, h, SplitN,
      cutFirst_append ':' _ _ hz]
  have hne : d.id ≠ "" := by
    have := sprintfColon_ne_empty z v
    rw [← hid] at this
    exact this
  have hne' : ¬ "" = d.id := fun e => hne e.symm
  rcases findVPC_of_wellformed v resp.VPCs hwf with ⟨hf, hex⟩ | ⟨hf, hex⟩
  · simp [resourceAwsRoute53ZoneAssociationAuthorizationRead, Iface.derefAWSClient,
      Iface.assertAWSClient, hp, hconn, hlist, hf, hex]
  · simp [resourceAwsRoute53ZoneAssociationAuthorizationRead, Iface.derefAWSClient,
      Iface.assertAWSClient, hp, hconn, hlist, hf, hex, ResourceData.SetId, hne']
    simp [ResourceData.Id, hne']

theorem authorizationRead_present_iff_witness :
    (resourceAwsRoute53ZoneAssociationAuthorizationRead sampleEnv
        (sampleAuthorization (sprintfColon "Z9" "vpc-77")) (.awsClient (some 0))
        sampleWorld).result = .done none ∧
    ((resourceAwsRoute53ZoneAssociationAuthorizationRead sampleEnv
        (sampleAuthorization (sprintfColon "Z9" "vpc-77")) (.awsClient (some 0))
        sampleWorld).d.Id = (sampleAuthorization (sprintfColon "Z9" "vpc-77")).Id ↔
      ∃ vpc, some vpc ∈ [some (⟨some "vpc-77", some "eu-west-1"⟩ : VPC),
          some ⟨some "vpc-78", some "eu-west-1"⟩] ∧ vpc.VPCId = some "vpc-77") ∧
    ((¬ ∃ vpc, some vpc ∈ [some (⟨some "vpc-77", some "eu-west-1"⟩ : VPC),
          some ⟨some "vpc-78", some "eu-west-1"⟩] ∧ vpc.VPCId = some "vpc-77") →
      (resourceAwsRoute53ZoneAssociationAuthorizationRead sampleEnv
        (sampleAuthorization (sprintfColon "Z9" "vpc-77")) (.awsClient (some 0))
        sampleWorld).d = (sampleAuthorization (sprintfColon "Z9" "vpc-77")).SetId "") :=
  authorizationRead_present_iff sampleEnv (sampleAuthorization (sprintfColon "Z9" "vpc-77"))
    0 sampleWorld ⟨(sampleSession "eu-west-1").CopyRegion "us-east-1"⟩ "Z9" "vpc-77"
    ⟨[some ⟨some "vpc-77", some "eu-west-1"⟩, some ⟨some "vpc-78", some "eu-west-1"⟩]⟩
    rfl rfl (by decide) rfl (by
      intro e he
      simp only [List.mem_cons, List.mem_singleton, List.not_mem_nil, or_false] at he
      rcases he with rfl | rfl
      · exact ⟨_, _, rfl, rfl⟩
      · exact ⟨_, _, rfl, rfl⟩)

/-- C6: when the list call of the authorization `Read` fails with an API error of
code `NoSuchHostedZone`, `Read` returns success and the ID is cleared; when it
fails with any other error, `Read` returns that same error and leaves the resource
data as it was. -/
theorem authorizationRead_list_error (env : Env) (d : ResourceData) (a : Addr) (w : World)
    (conn : Route53) (z v : String) (err : GoError)
    (hconn : (w.heap a).r53conn = some conn)
    (hparse : resourceAwsRoute53ZoneAssociationAuthorizationParseId d.Id = .done (z, v))
    (hlist : env.ListVPCAssociationAuthorizations conn { HostedZoneId := z } = .error err) :
    ((∃ text, err = .aws "NoSuchHostedZone" text) →
      (resourceAwsRoute53ZoneAssociationAuthorizationRead env d (.awsClient (some a)) w).result
          = .done none ∧
      (resourceAwsRoute53ZoneAssociationAuthorizationRead env d (.awsClient (some a)) w).d.Id
          = "") ∧
    ((¬ ∃ text, err = .aws "NoSuchHostedZone" text) →
      (resourceAwsRoute53ZoneAssociationAuthorizationRead env d (.awsClient (some a)) w).result
          = .done (some err) ∧
      (resourceAwsRoute53ZoneAssociationAuthorizationRead env d (.awsClient (some a)) w).d
          = d) := by
  have hparse' : resourceAwsRoute53ZoneAssociationAuthorizationParseId d.id = .done (z, v) :=
    hparse
  constructor
  · rintro ⟨text, rfl⟩
    simp [resourceAwsRoute53ZoneAssociationAuthorizationRead, Iface.derefAWSClient,
      Iface.assertAWSClient, hparse', hconn, hlist, isAwsErrWithCode, ResourceData.SetId,
      ResourceData.Id]
  · intro hn
    have hc : isAwsErrWithCode err "NoSuchHostedZone" = false := by
      cases err with
      | aws code text =>
        have : code ≠ "NoSuchHostedZone" := fun e => hn ⟨text, by rw [e]⟩
        simp [isAwsErrWithCode, this]
      | plain text => rfl
    simp [resourceAwsRoute53ZoneAssociationAuthorizationRead, Iface.derefAWSClient,
      Iface.assertAWSClient, hparse, hconn, hlist, hc]

theorem authorizationRead_list_error_witness :
    ((resourceAwsRoute53ZoneAssociationAuthorizationRead sampleEnv
        (sampleAuthorization "Zgone:vpc-77") (.awsClient (some 0)) sampleWorld).result
          = .done none ∧
      (resourceAwsRoute53ZoneAssociationAuthorizationRead sampleEnv
        (sampleAuthorization "Zgone:vpc-77") (.awsClient (some 0)) sampleWorld).d.Id = "") ∧
    ((resourceAwsRoute53ZoneAssociationAuthorizationRead sampleEnv
        (sampleAuthorization "Zother:vpc-77") (.awsClient (some 0)) sampleWorld).result
          = .done (some (.aws "AccessDenied" "not authorized")) ∧
      (resourceAwsRoute53ZoneAssociationAuthorizationRead sampleEnv
        (sampleAuthorization "Zother:vpc-77") (.awsClient (some 0)) sampleWorld).d
          = sampleAuthorization "Zother:vpc-77") :=
  ⟨(authorizationRead_list_error sampleEnv (sampleAuthorization "Zgone:vpc-77") 0 sampleWorld
      ⟨(sampleSession "eu-west-1").CopyRegion "us-east-1"⟩ "Zgone" "vpc-77"
      (.aws "NoSuchHostedZone" "no such zone") rfl (by decide) rfl).1 ⟨_, rfl⟩,
   (authorizationRead_list_error sampleEnv (sampleAuthorization "Zother:vpc-77") 0
      sampleWorld ⟨(sampleSession "eu-west-1").CopyRegion "us-east-1"⟩ "Zother" "vpc-77"
      (.aws "AccessDenied" "not authorized") rfl (by decide) rfl).2 (by
        rintro ⟨text, h⟩
        have hcode : "AccessDenied" = "NoSuchHostedZone" := (GoError.aws.inj h).1
        exact absurd hcode (by decide))⟩

/-! ### Zone association: Create -/

theorem zoneAssociationRequest_eq (d : ResourceData) (client : AWSClient) :
    zoneAssociationRequest d client =
      ⟨d.zone_id, d.vpc_id, if d.vpc_region ≠ "" then d.vpc_region else client.region,
        "Managed by Terraform"⟩ := by
  by_cases h : d.vpc_region = "" <;> simp [zoneAssociationRequest, h]

theorem zoneAssociationCreate_ok (env : Env) (d : ResourceData) (a : Addr) (w : World)
    (conn : Route53) (resp : AssociateVPCWithHostedZoneOutput)
    (hconn : (w.heap a).r53conn = some conn)
    (hok : env.AssociateVPCWithHostedZone conn (zoneAssociationRequest d (w.heap a))
      = .ok resp) :
    resourceAwsRoute53ZoneAssociationCreate env d (.awsClient (some a)) w =
      { result := env.WaitForState (zoneAssociationWait env w
          { d with id := sprintfColon d.zone_id d.vpc_id,
                   vpc_region := (zoneAssociationRequest d (w.heap a)).VPCRegion }
          (.awsClient (some a)) resp),
        d := { d with id := sprintfColon d.zone_id d.vpc_id,
                      vpc_region := (zoneAssociationRequest d (w.heap a)).VPCRegion },
        w := w } := by
  have h1 : (zoneAssociationRequest d (w.heap a)).HostedZoneId = d.zone_id := by
    rw [zoneAssociationRequest_eq]
  have h2 : (zoneAssociationRequest d (w.heap a)).VPCId = d.vpc_id := by
    rw [zoneAssociationRequest_eq]
  simp only [resourceAwsRoute53ZoneAssociationCreate, Iface.derefAWSClient,
    Iface.assertAWSClient, hconn, hok, h1, h2, ResourceData.SetId]
  split <;> simp_all

/-- C7: when the associate call of the zone-association `Create` succeeds, the
resource data afterwards carries the ID `zone_id:vpc_id` and the `vpc_region`
that was configured, or the default context's region when none was, whatever the
waiter reports; `Create` returns what the waiter returns, so a waiter error comes
back with the ID set. When the associate call fails, `Create` returns its error
and the resource data is untouched. -/
theorem zoneAssociationCreate_sets_id_before_waiting (env : Env) (d : ResourceData)
    (a : Addr) (w : World) (conn : Route53) (hconn : (w.heap a).r53conn = some conn) :
    (∀ resp : AssociateVPCWithHostedZoneOutput,
      env.AssociateVPCWithHostedZone conn
        ⟨d.zone_id, d.vpc_id, if d.vpc_region ≠ "" then d.vpc_region else (w.heap a).region,
          "Managed by Terraform"⟩ = .ok resp →
      (resourceAwsRoute53ZoneAssociationCreate env d (.awsClient (some a)) w).d.Id
          = d.zone_id ++ ":" ++ d.vpc_id ∧
      (resourceAwsRoute53ZoneAssociationCreate env d (.awsClient (some a)) w).d.vpc_region
          = (if d.vpc_region ≠ "" then d.vpc_region else (w.heap a).region) ∧
      (resourceAwsRoute53ZoneAssociationCreate env d (.awsClient (some a)) w).result
          = env.WaitForState (zoneAssociationWait env w
              (resourceAwsRoute53ZoneAssociationCreate env d (.awsClient (some a)) w).d
              (.awsClient (some a)) resp) ∧
      ∀ werr : GoError,
        env.WaitForState (zoneAssociationWait env w
            { d with id := d.zone_id ++ ":" ++ d.vpc_id,
                     vpc_region := if d.vpc_region ≠ "" then d.vpc_region
                                   else (w.heap a).region }
            (.awsClient (some a)) resp) = .done (some werr) →
        (resourceAwsRoute53ZoneAssociationCreate env d (.awsClient (some a)) w).result
            = .done (some werr) ∧
        (resourceAwsRoute53ZoneAssociationCreate env d (.awsClient (some a)) w).d.Id
            = d.zone_id ++ ":" ++ d.vpc_id) ∧
    (∀ err : GoError,
      env.AssociateVPCWithHostedZone conn
        ⟨d.zone_id, d.vpc_id, if d.vpc_region ≠ "" then d.vpc_region else (w.heap a).region,
          "Managed by Terraform"⟩ = .error err →
      (resourceAwsRoute53ZoneAssociationCreate env d (.awsClient (some a)) w).result
          = .done (some err) ∧
      (resourceAwsRoute53ZoneAssociationCreate env d (.awsClient (some a)) w).d = d) := by
  constructor
  · intro resp hok
    rw [← zoneAssociationRequest_eq d (w.heap a)] at hok
    have hreg : (zoneAssociationRequest d (w.heap a)).VPCRegion =
        if d.vpc_region ≠ "" then d.vpc_region else (w.heap a).region := by
      rw [zoneAssociationRequest_eq]
    rw [zoneAssociationCreate_ok env d a w conn resp hconn hok, hreg]
    refine ⟨rfl, rfl, rfl, ?_⟩
    intro werr hw
    exact ⟨hw, rfl⟩
  · intro err herr
    rw [← zoneAssociationRequest_eq d (w.heap a)] at herr
    simp [resourceAwsRoute53ZoneAssociationCreate, Iface.derefAWSClient,
      Iface.assertAWSClient, hconn, herr]

theorem zoneAssociationCreate_sets_id_before_waiting_witness :
    ((resourceAwsRoute53ZoneAssociationCreate sampleEnvTimeout (sampleData "peer")
        (.awsClient (some 0)) sampleWorld).d.Id = "Z123ABC" ++ ":" ++ "vpc-0a1b2c3d" ∧
      (resourceAwsRoute53ZoneAssociationCreate sampleEnvTimeout (sampleData "peer")
        (.awsClient (some 0)) sampleWorld).d.vpc_region = "eu-west-1" ∧
      (resourceAwsRoute53ZoneAssociationCreate sampleEnvTimeout (sampleData "peer")
        (.awsClient (some 0)) sampleWorld).result
          = .done (some (.plain "timeout while waiting for state"))) ∧
    ((resourceAwsRoute53ZoneAssociationCreate sampleEnv
        { sampleData "peer" with zone_id := "Zgone" } (.awsClient (some 0)) sampleWorld).result
          = .done (some (.aws "NoSuchHostedZone" "no such zone")) ∧
      (resourceAwsRoute53ZoneAssociationCreate sampleEnv
        { sampleData "peer" with zone_id := "Zgone" } (.awsClient (some 0)) sampleWorld).d
          = { sampleData "peer" with zone_id := "Zgone" }) :=
  ⟨⟨((zoneAssociationCreate_sets_id_before_waiting sampleEnvTimeout (sampleData "peer") 0
        sampleWorld ⟨(sampleSession "eu-west-1").CopyRegion "us-east-1"⟩ rfl).1
        ⟨some "/change/C2682N5HXP0BZ4"⟩ rfl).1,
     ((zoneAssociationCreate_sets_id_before_waiting sampleEnvTimeout (sampleData "peer") 0
        sampleWorld ⟨(sampleSession "eu-west-1").CopyRegion "us-east-1"⟩ rfl).1
        ⟨some "/change/C2682N5HXP0BZ4"⟩ rfl).2.1,
     (((zoneAssociationCreate_sets_id_before_waiting sampleEnvTimeout (sampleData "peer") 0
        sampleWorld ⟨(sampleSession "eu-west-1").CopyRegion "us-east-1"⟩ rfl).1
        ⟨some "/change/C2682N5HXP0BZ4"⟩ rfl).2.2.2
        (.plain "timeout while waiting for state") rfl).1⟩,
   (zoneAssociationCreate_sets_id_before_waiting sampleEnv
      { sampleData "peer" with zone_id := "Zgone" } 0 sampleWorld
      ⟨(sampleSession "eu-west-1").CopyRegion "us-east-1"⟩ rfl).2
      (.aws "NoSuchHostedZone" "no such zone") rfl⟩

/-- Scenario S1 on the sample collaborators: `Create` on the default context in
`eu-west-1` with `sub_provider = "peer"` polls with the client registered under
`peer`, sees `INSYNC` on the second poll and succeeds with the composite ID set. -/
theorem zoneAssociationCreate_happy_path :
    (resourceAwsRoute53ZoneAssociationCreate sampleEnv (sampleData "peer")
        (.awsClient (some 0)) sampleWorld).result = .done none ∧
      (resourceAwsRoute53ZoneAssociationCreate sampleEnv (sampleData "peer")
        (.awsClient (some 0)) sampleWorld).d =
        { id := "Z123ABC:vpc-0a1b2c3d", zone_id := "Z123ABC", vpc_id := "vpc-0a1b2c3d",
          vpc_region := "eu-west-1", sub_provider := "peer" } := by
  constructor <;> decide

end TfExtras
